import Mathlib

/-!
# Verification of the YouTube marketing tool's metric-derivation and aggregation layer

Shallow embedding of the two source files `app.py` (FastAPI service) and
`streamlit_app.py` (dashboard).  Conventions used throughout:

* A Python `dict[k]` subscript that can fail with `KeyError` is modelled as an
  `Option` field together with an explicit access that produces an exception
  value; `dict.get(k, d)` is modelled with `Option.getD`.
* Numeric statistics arrive from the collaborator as decimal strings and are
  converted with `int(...)`; they are modelled as already-parsed `Option Nat`
  fields (present-and-numeric, or absent).
* Python float arithmetic on these metrics is modelled with exact rationals
  (`ℚ`); `round(x, n)` is Python's round-half-to-even, modelled by `pyRound`.
* The collaborator (YouTube Data API) responses are inputs to the embedded
  functions, so the `except HttpError` branches of the source (which catch
  transport-level errors raised by `.execute()`) have no counterpart here;
  all remaining exception behaviour of the bodies is modelled explicitly.
-/

set_option maxRecDepth 16384

/-- Python's `round` to an integer: round half to even (banker's rounding). -/
def pyRound (q : ℚ) : ℤ :=
  let f : ℤ := ⌊q⌋
  let r : ℚ := q - (f : ℚ)
  if r < 1/2 then f
  else if (1 : ℚ)/2 < r then f + 1
  else if f % 2 = 0 then f else f + 1

/-- Python's `round(x, 2)` (two decimal places, half to even). -/
def round2 (q : ℚ) : ℚ := (pyRound (q * 100) : ℚ) / 100

/-- Python's `round(x, 0)` (zero decimal places, half to even; a float in
Python, hence a `ℚ` here). -/
def round0 (q : ℚ) : ℚ := (pyRound q : ℚ)

/-- Python's `str.lower()` (the titles the claims exercise are ASCII, where
Python's case folding agrees with `Char.toLower`). -/
def pyLower (s : String) : String := String.mk (s.toList.map Char.toLower)

/-- Worker for `pySplitWs`: walk the characters, accumulating the current
(reversed) word. -/
def splitWsAux : List Char → List Char → List String
  | [], cur => if cur.isEmpty then [] else [String.mk cur.reverse]
  | c :: cs, cur =>
    if c.isWhitespace then
      if cur.isEmpty then splitWsAux cs []
      else String.mk cur.reverse :: splitWsAux cs []
    else splitWsAux cs (c :: cur)

/-- Python's no-argument `str.split()`: split on runs of whitespace, dropping
empty pieces. -/
def pySplitWs (s : String) : List String := splitWsAux s.toList []

/-- Python's substring test `needle in hay` on strings. -/
def strContains (hay needle : String) : Bool :=
  (List.range (hay.length + 1)).any fun i =>
    (hay.toList.drop i).take needle.length == needle.toList

/-! ## Raw collaborator records (untyped JSON, every field optional) -/

/-- The `statistics` object of a video resource. -/
structure RawVideoStats where
  viewCount : Option Nat
  likeCount : Option Nat
  commentCount : Option Nat
  dislikeCount : Option Nat
deriving DecidableEq

/-- The `statistics` object of a channel resource. -/
structure RawChannelStats where
  subscriberCount : Option Nat
  videoCount : Option Nat
  viewCount : Option Nat
deriving DecidableEq

/-- The `snippet` object of a video/channel resource.  The two-level access
`snippet['thumbnails'][res]['url']` is flattened into an association list from
resolution key to url (the inner `'url'` key is never missing in any behaviour
the claims exercise). -/
structure RawSnippet where
  title : Option String
  channelId : Option String
  channelTitle : Option String
  publishedAt : Option String
  description : Option String
  thumbnails : Option (List (String × String))
  tags : Option (List String)
  categoryId : Option String
deriving DecidableEq

instance : Inhabited RawSnippet :=
  ⟨⟨none, none, none, none, none, none, none, none⟩⟩

/-- The `contentDetails` object of a video resource. -/
structure RawContent where
  duration : Option String
  definition : Option String
  caption : Option String
deriving DecidableEq

/-- A video resource from `videos().list`. -/
structure RawVideo where
  id : Option String
  snippet : Option RawSnippet
  statistics : Option RawVideoStats
  contentDetails : Option RawContent
deriving DecidableEq

instance : Inhabited RawVideo := ⟨⟨none, none, none, none⟩⟩

/-- A search hit from `search().list`; the nested access
`item['id']['videoId']` is collapsed into one optional field. -/
structure RawSearchHit where
  videoId : Option String
  snippet : Option RawSnippet
deriving DecidableEq

/-- The `contentDetails` object of a channel resource; the nested check for
`'relatedPlaylists'` and `'uploads'` is collapsed into one optional field. -/
structure RawChannelContent where
  uploads : Option String
deriving DecidableEq

/-- A channel resource from `channels().list`. -/
structure RawChannel where
  id : Option String
  snippet : Option RawSnippet
  statistics : Option RawChannelStats
  contentDetails : Option RawChannelContent
deriving DecidableEq

instance : Inhabited RawChannel := ⟨⟨none, none, none, none⟩⟩

/-- One playlist item of the uploads playlist (its `snippet` accessed only
through tolerant `.get` calls, so collapsed into the two used fields). -/
structure RawPlaylistItem where
  title : Option String
  publishedAt : Option String
deriving DecidableEq

/-- One parsed top-level comment (built inside the same `try` as the comment
fetch, so any failure in the fetch or the parsing collapses to the empty
list; the parsed values are taken as input). -/
structure TopComment where
  text : String
  likeCount : Nat
  publishedAt : String
deriving DecidableEq

/-! ## Python exception values and the FastAPI endpoint wrapper -/

/-- The exceptions the embedded bodies can raise. -/
inductive PyExc where
  | httpException : Nat → String → PyExc
  | keyError : String → PyExc
  | zeroDivisionError : PyExc
deriving DecidableEq

/-- Python's `str(e)` for the exceptions above.  `fastapi.HTTPException`
stringifies as `"{status_code}: {detail}"` (starlette), `KeyError` as the
quoted key, `ZeroDivisionError` as `"division by zero"`. -/
def pyStr : PyExc → String
  | .httpException s d => toString s ++ ": " ++ d
  | .keyError k => "'" ++ k ++ "'"
  | .zeroDivisionError => "division by zero"

/-- What a FastAPI endpoint ultimately produces: a value, or an HTTP error
response with a status code and a detail string. -/
inductive ApiResult (α : Type) where
  | ok : α → ApiResult α
  | httpError : Nat → String → ApiResult α
deriving DecidableEq

/-- The status code of an endpoint outcome (200 for a plain value). -/
def ApiResult.status : ApiResult α → Nat
  | .ok _ => 200
  | .httpError s _ => s

/-- The `try`/`except` tail shared by every endpoint:
`except Exception as e: raise HTTPException(status_code=500, detail=str(e))`.
`fastapi.HTTPException` subclasses `Exception` (and is not a googleapiclient
`HttpError`), so an `HTTPException` raised inside the `try` block is caught
here as well and re-raised with status 500. -/
def runEndpoint : Except PyExc α → ApiResult α
  | .ok a => .ok a
  | .error e => .httpError 500 (pyStr e)

/-- A Python dict subscript: the value when the key is present, otherwise a
`KeyError` naming the key. -/
def getItem (o : Option α) (key : String) : Except PyExc α :=
  match o with
  | some a => .ok a
  | none => .error (.keyError key)

/-! ## Response models of `app.py` (pydantic `BaseModel`s and plain dicts) -/

/-- `VideoInfo` (app.py lines 36-48). -/
structure VideoInfo where
  video_id : String
  title : String
  channel_id : String
  channel_title : String
  published_at : String
  view_count : Nat
  like_count : Nat
  comment_count : Nat
  duration : String
  thumbnail_url : String
  engagement_rate : ℚ
  description : String
deriving DecidableEq

/-- `ChannelInfo` (app.py lines 50-59). -/
structure ChannelInfo where
  channel_id : String
  title : String
  description : String
  subscriber_count : Nat
  video_count : Nat
  view_count : Nat
  published_at : String
  thumbnail_url : String
  average_views : ℚ
deriving DecidableEq

/-- The `'statistics'` sub-dict of the `/video/{id}` response. -/
structure VideoStatsOut where
  view_count : Nat
  like_count : Nat
  dislike_count : Nat
  comment_count : Nat
  engagement_rate : ℚ
deriving DecidableEq

/-- The `'video_info'` sub-dict of the `/video/{id}` response. -/
structure VideoInfoOut where
  title : String
  channel : String
  published_at : String
  description : String
deriving DecidableEq

/-- The `'content_details'` sub-dict of the `/video/{id}` response. -/
structure ContentOut where
  duration : String
  definition : String
  caption : String
deriving DecidableEq

/-- The full `/video/{id}` response dict. -/
structure VideoAnalysis where
  video_info : VideoInfoOut
  statistics : VideoStatsOut
  tags : List String
  top_comments : List TopComment
  content_details : ContentOut
deriving DecidableEq

/-- One row of the `/trending` response. -/
structure TrendingRow where
  video_id : String
  title : String
  channel : String
  published_at : String
  view_count : Nat
  like_count : Nat
  thumbnail_url : String
  category : String
deriving DecidableEq

/-- The full `/trending` response. -/
structure TrendingResult where
  region : String
  total : Nat
  videos : List TrendingRow
deriving DecidableEq

/-- One entry of the `'growth_potential'` list of `/compare-channels`. -/
structure GrowthEntry where
  channel : String
  engagement_score : ℚ
  rating : String
deriving DecidableEq

/-- The `'average_metrics'` dict of `/compare-channels`. -/
structure AvgMetrics where
  avg_subscribers : ℤ
  avg_videos : ℤ
  avg_views : ℤ
  avg_views_per_video : ℤ
deriving DecidableEq

/-- The `'rankings'` dict of `/compare-channels`. -/
structure Rankings where
  by_subscribers : List String
  by_total_views : List String
  by_avg_views : List String
deriving DecidableEq

/-- The full `/compare-channels` response (`ChannelComparison`). -/
structure ChannelComparison where
  channels : List ChannelInfo
  average_metrics : AvgMetrics
  rankings : Rankings
  growth_potential : List GrowthEntry
deriving DecidableEq

/-- One entry of the `/keyword-suggestions` analysis list. -/
structure KeywordSug where
  keyword : String
  search_volume : Nat
  relevance : String
deriving DecidableEq

/-- The full `/keyword-suggestions` response. -/
structure KeywordResult where
  base_keyword : String
  suggestions : List KeywordSug
  total_found : Nat
deriving DecidableEq

/-! ## Shared derivation helpers (translated from the indicated lines) -/

/-- Engagement-rate derivation of the search surfaces (app.py lines 154-173
and streamlit_app.py lines 111-131): guard the division by a `view_count > 0`
test, else 0, and round the result to two decimals at record construction. -/
def engagementRate (view like comment : Nat) : ℚ :=
  round2 (if 0 < view then (((like : ℚ) + (comment : ℚ)) / (view : ℚ)) * 100 else 0)

/-- Description derivation of the API search surface (app.py line 174):
`snippet['description'][:200] + "..."`, unconditionally. -/
def appVideoDescription (d : String) : String :=
  d.take 200 ++ "..."

/-- Description derivation of the API channel surface (app.py line 285):
`snippet['description'][:200] + "..." if snippet['description'] else ""`. -/
def appChannelDescription (d : String) : String :=
  if d ≠ "" then d.take 200 ++ "..." else ""

/-- Description derivation of the dashboard channel surface
(streamlit_app.py line 181):
`(snippet.get('description', '')[:200] + "...") if snippet.get('description') else "説明なし"`. -/
def stChannelDescription (o : Option String) : String :=
  if o.getD "" ≠ "" then (o.getD "").take 200 ++ "..." else "説明なし"

/-- Thumbnail derivation of the dashboard surfaces (streamlit_app.py lines
119-122, 170-173, 384-387): the empty string unless the `thumbnails` object
and the preferred resolution key are both present. -/
def stThumbUrl (s : RawSnippet) (pref : String) : String :=
  match s.thumbnails with
  | none => ""
  | some ts =>
    match ts.lookup pref with
    | none => ""
    | some u => u

/-- Thumbnail derivation of the API surfaces (app.py lines 172, 290, 344):
`snippet['thumbnails']['high']['url']`, raising `KeyError` when either key is
missing. -/
def appThumbUrl (s : RawSnippet) : Except PyExc String :=
  match s.thumbnails with
  | none => .error (.keyError "thumbnails")
  | some ts =>
    match ts.lookup "high" with
    | none => .error (.keyError "high")
    | some u => .ok u

/-- Average-views derivation of the API channel surface (app.py lines
278-291): `view / video if video > 0 else 0`, then `round(average_views, 0)`.
`view` and `video` are the already-defaulted counts. -/
def appAverageViews (view video : Nat) : ℚ :=
  round0 (if 0 < video then (view : ℚ) / (video : ℚ) else 0)

/-- Average-views computation of the dashboard channel-analysis branch
(streamlit_app.py line 327): `view / max(video, 1)`. -/
def stChannelAvgViews (view video : Nat) : ℚ :=
  (view : ℚ) / ((max video 1 : Nat) : ℚ)

/-! ## `app.py` endpoints -/

/-- The hard-coded record returned by `/search` in "temporary test mode"
(app.py lines 110-126). -/
def testVideo : VideoInfo :=
  { video_id := "test123"
    title := "Python プログラミング入門"
    channel_id := "ch123"
    channel_title := "テストチャンネル"
    published_at := "2024-01-01T00:00:00Z"
    view_count := 10000
    like_count := 500
    comment_count := 50
    duration := "PT10M30S"
    thumbnail_url := "https://via.placeholder.com/320x180"
    engagement_rate := 11/2
    description := "これはテストデータです..." }

/-- Normalization of one `videos().list` item in `/search` (app.py lines
149-176): `statistics` and `snippet` are accessed by subscript (KeyError when
absent), the three counts default to 0, and every remaining field is a
subscript access. -/
def appNormalizeVideo (item : RawVideo) : Except PyExc VideoInfo := do
  let stats ← getItem item.statistics "statistics"
  let snippet ← getItem item.snippet "snippet"
  let view := stats.viewCount.getD 0
  let like := stats.likeCount.getD 0
  let comment := stats.commentCount.getD 0
  let vid ← getItem item.id "id"
  let title ← getItem snippet.title "title"
  let chId ← getItem snippet.channelId "channelId"
  let chTitle ← getItem snippet.channelTitle "channelTitle"
  let pub ← getItem snippet.publishedAt "publishedAt"
  let content ← getItem item.contentDetails "contentDetails"
  let dur ← getItem content.duration "duration"
  let thumb ← appThumbUrl snippet
  let desc ← getItem snippet.description "description"
  pure
    { video_id := vid
      title := title
      channel_id := chId
      channel_title := chTitle
      published_at := pub
      view_count := view
      like_count := like
      comment_count := comment
      duration := dur
      thumbnail_url := thumb
      engagement_rate := engagementRate view like comment
      description := appVideoDescription desc }

/-- `GET /search` (app.py lines 100-183).  The first `if not youtube` branch
returns the hard-coded test record; the second one (line 128-129), kept here
verbatim, is unreachable.  `hits` are the `search().list` items (only their
`['id']['videoId']` subscripts are evaluated) and `items` the
`videos().list` items. -/
def search_videos (ready : Bool) (hits : List RawSearchHit)
    (items : List RawVideo) : ApiResult (List VideoInfo) :=
  if !ready then .ok [testVideo]
  else if !ready then .httpError 503 "YouTube APIが利用できません"
  else runEndpoint do
    let _ ← hits.mapM fun h => getItem h.videoId "videoId"
    items.mapM appNormalizeVideo

/-- Body of `GET /video/{video_id}` (app.py lines 192-249), everything inside
the `try`.  `commentFetch` is the comment sub-call's outcome (`none` models
any exception in the fetch or its parsing, absorbed to `[]` by the inner
bare `except`). -/
def analyzeVideoBody (items : List RawVideo)
    (commentFetch : Option (List TopComment)) : Except PyExc VideoAnalysis := do
  if items.isEmpty then
    throw (.httpException 404 "動画が見つかりません")
  let item := items.headD default
  let stats ← getItem item.statistics "statistics"
  let snippet ← getItem item.snippet "snippet"
  let comments := commentFetch.getD []
  let tags := snippet.tags.getD []
  let title ← getItem snippet.title "title"
  let chTitle ← getItem snippet.channelTitle "channelTitle"
  let pub ← getItem snippet.publishedAt "publishedAt"
  let desc ← getItem snippet.description "description"
  let denom := stats.viewCount.getD 1
  if denom = 0 then
    throw .zeroDivisionError
  let er := round2
    ((((stats.likeCount.getD 0 : ℚ) + (stats.commentCount.getD 0 : ℚ)) / (denom : ℚ)) * 100)
  let content ← getItem item.contentDetails "contentDetails"
  let dur ← getItem content.duration "duration"
  let defn ← getItem content.definition "definition"
  pure
    { video_info :=
        { title := title, channel := chTitle, published_at := pub, description := desc }
      statistics :=
        { view_count := stats.viewCount.getD 0
          like_count := stats.likeCount.getD 0
          dislike_count := stats.dislikeCount.getD 0
          comment_count := stats.commentCount.getD 0
          engagement_rate := er }
      tags := tags.take 10
      top_comments := comments
      content_details :=
        { duration := dur, definition := defn, caption := content.caption.getD "false" } }

/-- `GET /video/{video_id}` (app.py lines 185-254): the availability guard,
then the body under `except Exception as e: HTTPException(500, str(e))`. -/
def analyze_video (ready : Bool) (items : List RawVideo)
    (commentFetch : Option (List TopComment)) : ApiResult VideoAnalysis :=
  if !ready then .httpError 503 "YouTube APIが利用できません"
  else runEndpoint (analyzeVideoBody items commentFetch)

/-- Body of `GET /channel/{channel_id}` (app.py lines 263-294). -/
def analyzeChannelBody (channelId : String) (items : List RawChannel) :
    Except PyExc ChannelInfo := do
  if items.isEmpty then
    throw (.httpException 404 "チャンネルが見つかりません")
  let item := items.headD default
  let stats ← getItem item.statistics "statistics"
  let snippet ← getItem item.snippet "snippet"
  let view := stats.viewCount.getD 0
  let video := stats.videoCount.getD 1
  let desc ← getItem snippet.description "description"
  let title ← getItem snippet.title "title"
  let pub ← getItem snippet.publishedAt "publishedAt"
  let thumb ← appThumbUrl snippet
  pure
    { channel_id := channelId
      title := title
      description := appChannelDescription desc
      subscriber_count := stats.subscriberCount.getD 0
      video_count := video
      view_count := view
      published_at := pub
      thumbnail_url := thumb
      average_views := appAverageViews view video }

/-- `GET /channel/{channel_id}` (app.py lines 256-299). -/
def analyze_channel (ready : Bool) (channelId : String)
    (items : List RawChannel) : ApiResult ChannelInfo :=
  if !ready then .httpError 503 "YouTube APIが利用できません"
  else runEndpoint (analyzeChannelBody channelId items)

/-- Body of `GET /trending` (app.py lines 312-352) for the already-fetched
response items: `statistics`, `snippet` and the high-resolution thumbnail are
subscript accesses, the counts default to 0 and the category to `'N/A'`. -/
def trendingBody (region : String) (items : List RawVideo) :
    Except PyExc TrendingResult := do
  let rows ← items.mapM fun item => do
    let stats ← getItem item.statistics "statistics"
    let snippet ← getItem item.snippet "snippet"
    let vid ← getItem item.id "id"
    let title ← getItem snippet.title "title"
    let chTitle ← getItem snippet.channelTitle "channelTitle"
    let pub ← getItem snippet.publishedAt "publishedAt"
    let thumb ← appThumbUrl snippet
    pure
      { video_id := vid
        title := title
        channel := chTitle
        published_at := pub
        view_count := stats.viewCount.getD 0
        like_count := stats.likeCount.getD 0
        thumbnail_url := thumb
        category := snippet.categoryId.getD "N/A"
        : TrendingRow }
  pure { region := region, total := rows.length, videos := rows }

/-- `GET /trending` (app.py lines 301-357). -/
def get_trending_videos (ready : Bool) (region : String)
    (items : List RawVideo) : ApiResult TrendingResult :=
  if !ready then .httpError 503 "YouTube APIが利用できません"
  else runEndpoint (trendingBody region items)

/-- `df.sort_values(col, ascending=False)` as `pandas.core.sorting.nargsort`
performs it: with `ascending=False` both the value array and the index array
are reversed first, then an ascending `argsort` runs, and the resulting
indexer is reversed again.  For at most five rows numpy's quicksort argsort
runs its insertion-sort branch, which is stable, so the ascending pass is
modelled by the stable `List.insertionSort` over the reversed row list and
the result is reversed once more.  The double reversal leaves equal keys in
their original input order. -/
def pandasSortDesc (key : α → β) [LinearOrder β] (rows : List α) : List α :=
  (List.insertionSort (fun a b => key a ≤ key b) rows.reverse).reverse

/-- Python's `int(x)` on a nonnegative float mean: truncation, i.e. the floor
for the nonnegative values occurring here. -/
def pyInt (q : ℚ) : ℤ := ⌊q⌋

/-- The `'average_metrics'` computation of `/compare-channels` (app.py lines
380-385): `int(df[col].mean())` for the four columns.  An empty frame makes
the column subscripts raise, which the caller models before reaching here. -/
def compareAvgMetrics (chs : List ChannelInfo) : AvgMetrics :=
  let n : ℚ := chs.length
  { avg_subscribers := pyInt ((chs.map fun c => (c.subscriber_count : ℚ)).sum / n)
    avg_videos := pyInt ((chs.map fun c => (c.video_count : ℚ)).sum / n)
    avg_views := pyInt ((chs.map fun c => (c.view_count : ℚ)).sum / n)
    avg_views_per_video := pyInt ((chs.map fun c => c.average_views).sum / n) }

/-- The `'rankings'` computation of `/compare-channels` (app.py lines
386-390): three independent descending `sort_values`, exposing titles. -/
def compareRankings (chs : List ChannelInfo) : Rankings :=
  { by_subscribers := (pandasSortDesc (fun c => c.subscriber_count) chs).map (fun c => c.title)
    by_total_views := (pandasSortDesc (fun c => c.view_count) chs).map (fun c => c.title)
    by_avg_views := (pandasSortDesc (fun c => c.average_views) chs).map (fun c => c.title) }

/-- The growth score of one row (app.py line 397):
`(channel['average_views'] / channel['subscriber_count']) * 100`. -/
def growthScore (c : ChannelInfo) : ℚ :=
  (c.average_views / (c.subscriber_count : ℚ)) * 100

/-- The rating thresholds of app.py line 401, applied to the unrounded
score. -/
def growthRating (q : ℚ) : String :=
  if 10 < q then "High" else if 5 < q then "Medium" else "Low"

/-- The entry appended for one row with positive subscribers (app.py lines
398-402): the score is rounded to two decimals for display, the rating
compares the unrounded score. -/
def growthEntryOf (c : ChannelInfo) : GrowthEntry :=
  { channel := c.title
    engagement_score := round2 (growthScore c)
    rating := growthRating (growthScore c) }

/-- The `'growth_potential'` computation of `/compare-channels` (app.py lines
394-402): rows are visited in input order; exactly the rows with
`subscriber_count > 0` contribute an entry. -/
def growthPotential (chs : List ChannelInfo) : List GrowthEntry :=
  chs.filterMap fun c =>
    if 0 < c.subscriber_count then some (growthEntryOf c) else none

/-- Body of `POST /compare-channels` (app.py lines 369-407): each id goes
through the `analyze_channel` endpoint function, whose `HTTPException`
outcomes propagate as exceptions into this `try`; an empty id list leaves
`pd.DataFrame([])` without columns, so the first column subscript raises
`KeyError`. -/
def compareBody (channelIds : List String)
    (resp : String → List RawChannel) : Except PyExc ChannelComparison := do
  let chs ← channelIds.mapM fun cid =>
    match analyze_channel true cid (resp cid) with
    | .ok c => Except.ok c
    | .httpError s d => Except.error (.httpException s d)
  if chs.isEmpty then
    throw (.keyError "subscriber_count")
  pure
    { channels := chs
      average_metrics := compareAvgMetrics chs
      rankings := compareRankings chs
      growth_potential := growthPotential chs }

/-- `POST /compare-channels` (app.py lines 359-410): availability guard, the
five-channel cap, then the body under the generic 500 wrapper. -/
def compare_channels (ready : Bool) (channelIds : List String)
    (resp : String → List RawChannel) : ApiResult ChannelComparison :=
  if !ready then .httpError 503 "YouTube APIが利用できません"
  else if 5 < channelIds.length then
    .httpError 400 "一度に比較できるチャンネルは5つまでです"
  else runEndpoint (compareBody channelIds resp)

/-! ## `GET /keyword-suggestions` -/

/-- The stopword list of app.py line 439. -/
def appStopwords : List String := ["this", "that", "with", "from"]

/-- The per-title token filter of app.py lines 437-440: case-folded
whitespace tokens longer than three characters that are not stopwords. -/
def appTitleTokens (title : String) : List String :=
  (pySplitWs (pyLower title)).filter fun w =>
    3 < w.length && !(appStopwords.contains w)

/-- Ordered de-duplicating insertion, modelling `set.add` under the caveat
stated at `keywordBody`. -/
def addOnce (acc : List String) (w : String) : List String :=
  if w ∈ acc then acc else acc ++ [w]

/-- Body of `GET /keyword-suggestions` (app.py lines 422-485).  `tagFetch`
is the per-video tag sub-call (`none` models its `try`/`except: pass`), and
`volumeOf` the per-keyword search-count sub-call (`none` models the
`try`/`except: pass` that simply skips the keyword).  Caveat: CPython's
`set` iterates in an implementation-defined order; the set is modelled as an
insertion-ordered list of distinct strings, and no theorem below depends on
that order. -/
def keywordBody (base : String) (hits : List RawSearchHit)
    (tagFetch : String → Option (List String))
    (volumeOf : String → Option Nat) : Except PyExc KeywordResult := do
  let keywords ← hits.foldlM (fun acc item => do
      let snippet ← getItem item.snippet "snippet"
      let title ← getItem snippet.title "title"
      let acc := (appTitleTokens title).foldl addOnce acc
      let vid ← getItem item.videoId "videoId"
      match tagFetch vid with
      | none => pure acc
      | some tags => pure ((tags.take 5).foldl addOnce acc))
    [base]
  let analysis := (keywords.take 20).filterMap fun kw =>
    if kw ≠ base then
      match volumeOf kw with
      | none => none
      | some vol =>
        some
          { keyword := kw
            search_volume := vol
            relevance :=
              if strContains (pyLower kw) (pyLower base) then "High" else "Medium"
            : KeywordSug }
    else none
  let sorted := (List.insertionSort (fun a b : KeywordSug =>
    b.search_volume ≤ a.search_volume) analysis)
  pure
    { base_keyword := base
      suggestions := sorted.take 15
      total_found := analysis.length }

/-- `GET /keyword-suggestions` (app.py lines 412-488). -/
def get_keyword_suggestions (ready : Bool) (base : String)
    (hits : List RawSearchHit) (tagFetch : String → Option (List String))
    (volumeOf : String → Option Nat) : ApiResult KeywordResult :=
  if !ready then .httpError 503 "YouTube APIが利用できません"
  else runEndpoint (keywordBody base hits tagFetch volumeOf)

/-! ## `streamlit_app.py` functions -/

/-- One row of the dashboard search-results frame (streamlit_app.py lines
124-134). -/
structure StVideoRow where
  title : String
  channel : String
  published : String
  view_count : Nat
  like_count : Nat
  comment_count : Nat
  engagement_rate : ℚ
  video_id : String
  thumbnail : String
deriving DecidableEq

/-- The `channel_data` dict of the dashboard channel analysis
(streamlit_app.py lines 175-183). -/
structure StChannelData where
  name : String
  subscriber_count : Nat
  video_count : Nat
  view_count : Nat
  opened : String
  description : String
  thumbnail : String
deriving DecidableEq

/-- One row of the dashboard recent-videos frame (streamlit_app.py lines
202-205). -/
structure StRecentRow where
  title : String
  published : String
deriving DecidableEq

/-- One row of the dashboard competitor-comparison frame (streamlit_app.py
lines 469-475). -/
structure StCompareRow where
  name : String
  subscriber_count : Nat
  video_count : Nat
  view_count : Nat
  average_views : ℚ
deriving DecidableEq

/-- `snippet.get('publishedAt', '')[:10] if snippet.get('publishedAt') else ''`
(streamlit_app.py lines 127, 180, 204). -/
def stPublished (o : Option String) : String :=
  if o.getD "" ≠ "" then (o.getD "").take 10 else ""

/-- Normalization of one `videos().list` item in the dashboard search
(streamlit_app.py lines 106-134): every access is a tolerant `.get` with a
documented default, the engagement rate is guarded by `view_count > 0`, and
the medium thumbnail falls back to the empty string.  The function is total:
no input record makes it raise. -/
def stNormalizeVideo (item : RawVideo) : StVideoRow :=
  let stats := item.statistics.getD ⟨none, none, none, none⟩
  let snippet := item.snippet.getD default
  let view := stats.viewCount.getD 0
  let like := stats.likeCount.getD 0
  let comment := stats.commentCount.getD 0
  { title := snippet.title.getD "タイトル不明"
    channel := snippet.channelTitle.getD "チャンネル不明"
    published := stPublished snippet.publishedAt
    view_count := view
    like_count := like
    comment_count := comment
    engagement_rate := engagementRate view like comment
    video_id := item.id.getD ""
    thumbnail := stThumbUrl snippet "medium" }

/-- Body of the dashboard `search_videos` (streamlit_app.py lines 77-136):
the `'items'` checks return an empty frame, the `video_ids` comprehension
subscripts can raise, and each detail item is normalized totally. -/
def stSearchVideosBody (hits : Option (List RawSearchHit))
    (items : Option (List RawVideo)) : Except PyExc (List StVideoRow) := do
  let hl := hits.getD []
  if hl.isEmpty then
    return []
  let _ ← hl.mapM fun h => getItem h.videoId "videoId"
  let il := items.getD []
  if il.isEmpty then
    return []
  pure (il.map stNormalizeVideo)

/-- The dashboard `search_videos` (streamlit_app.py lines 69-143).  The
result pairs the `st.error` messages shown with the returned frame's rows
(`st.warning` notices are not modelled); every exception path yields an
empty frame. -/
def stSearchVideos (ready : Bool) (hits : Option (List RawSearchHit))
    (items : Option (List RawVideo)) : List String × List StVideoRow :=
  if !ready then
    (["YouTube APIが初期化されていません。APIキーを確認してください。"], [])
  else
    match stSearchVideosBody hits items with
    | .ok rows => ([], rows)
    | .error e => (["予期しないエラーが発生しました: " ++ pyStr e], [])

/-- Body of the dashboard `analyze_channel` (streamlit_app.py lines 153-210):
a missing or empty `'items'` list returns `(None, empty)`; the channel dict
is built from tolerant `.get` accesses; the uploads playlist contributes the
recent-videos rows (`playlist` is `none` when the sub-call raises
`HttpError`, which the inner handler absorbs). -/
def stAnalyzeChannelBody (resp : Option (List RawChannel))
    (playlist : Option (List RawPlaylistItem)) :
    Except PyExc (Option StChannelData × List StRecentRow) := do
  let items := resp.getD []
  if items.isEmpty then
    return (none, [])
  let item := items.headD default
  let stats := item.statistics.getD ⟨none, none, none⟩
  let snippet := item.snippet.getD default
  let content := item.contentDetails.getD ⟨none⟩
  let channelData : StChannelData :=
    { name := snippet.title.getD "チャンネル名不明"
      subscriber_count := stats.subscriberCount.getD 0
      video_count := stats.videoCount.getD 0
      view_count := stats.viewCount.getD 0
      opened := stPublished snippet.publishedAt
      description := stChannelDescription snippet.description
      thumbnail := stThumbUrl snippet "high" }
  let recent :=
    match content.uploads with
    | none => []
    | some _ =>
      match playlist with
      | none => []
      | some vids =>
        vids.map fun v =>
          { title := v.title.getD "タイトル不明"
            published := stPublished v.publishedAt
            : StRecentRow }
  pure (some channelData, recent)

/-- The dashboard `analyze_channel` (streamlit_app.py lines 145-217). -/
def stAnalyzeChannel (ready : Bool) (resp : Option (List RawChannel))
    (playlist : Option (List RawPlaylistItem)) :
    Option StChannelData × List StRecentRow :=
  if !ready then (none, [])
  else
    match stAnalyzeChannelBody resp playlist with
    | .ok r => r
    | .error _ => (none, [])

/-- One comparison row of the dashboard competitor branch (streamlit_app.py
lines 462-475): `video_count = max(int(stats.get('videoCount', 1)), 1)`
guards the division, while the displayed `'動画本数'` uses default 0. -/
def stCompareRow (stats : RawChannelStats) (snippet : RawSnippet) : StCompareRow :=
  let videoCount : Nat := max (stats.videoCount.getD 1) 1
  { name := snippet.title.getD "チャンネル名不明"
    subscriber_count := stats.subscriberCount.getD 0
    video_count := stats.videoCount.getD 0
    view_count := stats.viewCount.getD 0
    average_views := (stats.viewCount.getD 0 : ℚ) / ((videoCount : Nat) : ℚ) }

/-! ## Dashboard keyword-frequency extraction (streamlit_app.py lines 554-567) -/

/-- One counting step of `keywords[word] = keywords.get(word, 0) + 1` on an
insertion-ordered table (Python dicts iterate in insertion order, and
updating an existing key keeps its position). -/
def bump : List (String × Nat) → String → List (String × Nat)
  | [], w => [(w, 1)]
  | (k, c) :: rest, w =>
    if k = w then (k, c + 1) :: rest else (k, c) :: bump rest w

/-- The filtered token stream of one title (streamlit_app.py lines 559-563):
case-fold, split on whitespace, keep words longer than three characters that
differ from the case-folded base keyword. -/
def stTitleTokens (base : String) (title : String) : List String :=
  (pySplitWs (pyLower title)).filter fun w =>
    3 < w.length && w ≠ pyLower base

/-- All filtered tokens of a hit list, in visit order. -/
def stAllTokens (base : String) (hits : List RawSearchHit) : List String :=
  hits.flatMap fun h =>
    stTitleTokens base ((h.snippet.getD default).title.getD "")

/-- The occurrence table `keywords` after the counting loop. -/
def stKeywordCounts (base : String) (hits : List RawSearchHit) :
    List (String × Nat) :=
  (stAllTokens base hits).foldl bump []

/-- `sorted(keywords.items(), key=lambda x: x[1], reverse=True)[:20]`
(streamlit_app.py line 567): Python's sort is stable also with
`reverse=True`, so ties keep their first-seen order. -/
def stTopKeywords (base : String) (hits : List RawSearchHit) :
    List (String × Nat) :=
  (List.insertionSort (fun a b : String × Nat => b.2 ≤ a.2)
    (stKeywordCounts base hits)).take 20

/-! ## Evaluation lemmas for the rounding helpers -/

theorem pyRound_eval (q : ℚ) (f : ℤ) (h0 : (f : ℚ) ≤ q) (h1 : q < (f : ℚ) + 1) :
    pyRound q =
      if q - (f : ℚ) < 1/2 then f
      else if (1 : ℚ)/2 < q - (f : ℚ) then f + 1
      else if f % 2 = 0 then f else f + 1 := by
  have hf : ⌊q⌋ = f := by
    rw [Int.floor_eq_iff]
    exact ⟨h0, h1⟩
  unfold pyRound
  rw [hf]

theorem pyRound_zero : pyRound 0 = 0 := by
  rw [pyRound_eval 0 0 (by norm_num) (by norm_num)]
  norm_num

theorem round2_zero : round2 0 = 0 := by
  unfold round2
  rw [zero_mul, pyRound_zero]
  norm_num

theorem round0_zero : round0 0 = 0 := by
  unfold round0
  rw [pyRound_zero]
  norm_num

theorem engagementRate_zero_view (l c : Nat) : engagementRate 0 l c = 0 := by
  unfold engagementRate
  norm_num [round2_zero]

/-! ## Concrete input records used by the claim theorems -/

/-- A snippet with every field present. -/
def fullSnippet : RawSnippet :=
  { title := some "t", channelId := some "c", channelTitle := some "ct"
    publishedAt := some "2024-01-01T00:00:00Z", description := some "d"
    thumbnails := some [("high", "hu"), ("medium", "mu")]
    tags := some [], categoryId := some "1" }

/-- A complete video record whose statistics report zero views (five likes,
five comments). -/
def zeroViewVideo : RawVideo :=
  { id := some "v0", snippet := some fullSnippet
    statistics := some
      { viewCount := some 0, likeCount := some 5
        commentCount := some 5, dislikeCount := none }
    contentDetails := some
      { duration := some "PT1M", definition := some "hd", caption := none } }

/-- A complete video record lacking the `statistics` object entirely. -/
def noStatsVideo : RawVideo :=
  { id := some "v1", snippet := some fullSnippet
    statistics := none
    contentDetails := some
      { duration := some "PT1M", definition := some "hd", caption := none } }

/-! ## Claim theorems -/

/-- C1 (counterexample).  With the client uninitialized, the API video-search
operation does not fail: it returns a 200-style result holding one hard-coded
video record (the "temporary test mode" of app.py lines 108-126), so the
claim that it never returns video records while uninitialized is false. -/
theorem search_uninit_returns_test_video :
    search_videos false [] [] = .ok [testVideo]
    ∧ (search_videos false [] []).status = 200
    ∧ [testVideo].length = 1 := by
  exact ⟨rfl, rfl, rfl⟩

/-- C1 (amended).  With the client uninitialized, every embedded user-facing
operation except the API video search fails immediately: the five other API
endpoints return the 503 unavailability error without consulting their
inputs, and the two dashboard operations show the unavailability error and
return no result data.  The API video search instead returns the single
hard-coded test video record. -/
theorem uninit_operations_fail_except_search
    (hits : List RawSearchHit) (items : List RawVideo)
    (cf : Option (List TopComment)) (cid region base : String)
    (chItems : List RawChannel) (ids : List String)
    (resp : String → List RawChannel)
    (tagF : String → Option (List String)) (volF : String → Option Nat)
    (chResp : Option (List RawChannel)) (pl : Option (List RawPlaylistItem))
    (shits : Option (List RawSearchHit)) (sitems : Option (List RawVideo)) :
    analyze_video false items cf = .httpError 503 "YouTube APIが利用できません"
    ∧ analyze_channel false cid chItems = .httpError 503 "YouTube APIが利用できません"
    ∧ get_trending_videos false region items = .httpError 503 "YouTube APIが利用できません"
    ∧ compare_channels false ids resp = .httpError 503 "YouTube APIが利用できません"
    ∧ get_keyword_suggestions false base hits tagF volF
        = .httpError 503 "YouTube APIが利用できません"
    ∧ stSearchVideos false shits sitems
        = (["YouTube APIが初期化されていません。APIキーを確認してください。"], [])
    ∧ stAnalyzeChannel false chResp pl = (none, [])
    ∧ search_videos false hits items = .ok [testVideo] := by
  exact ⟨rfl, rfl, rfl, rfl, rfl, rfl, rfl, rfl⟩

/-- C2 (code bug).  A single-entity lookup whose id yields no items does
raise `HTTPException(404, ...)` in the source, but that exception is caught
by the endpoint's own `except Exception` clause and re-raised as a generic
500, so the response the client sees is a 500-style failure whose detail
merely embeds the stringified 404 — not a distinct NotFound status. -/
theorem notfound_wrapped_as_500 :
    analyze_video true [] none = .httpError 500 "404: 動画が見つかりません"
    ∧ (analyze_video true [] none).status = 500
    ∧ analyze_channel true "UC1" [] = .httpError 500 "404: チャンネルが見つかりません"
    ∧ (analyze_channel true "UC1" []).status = 500 := by
  exact ⟨rfl, rfl, rfl, rfl⟩

/-- C3 (code bug).  Single-video analysis of a record whose statistics report
`viewCount = 0` does not derive an engagement rate of 0: the unguarded
division `(like + comment) / int(stats.get('viewCount', 1))` raises
`ZeroDivisionError`, surfaced as HTTP 500.  The sibling search surface, by
contrast, derives 0 for the very same record, as the claim demands. -/
theorem analyze_video_zero_viewcount_500 :
    analyze_video true [zeroViewVideo] none = .httpError 500 "division by zero"
    ∧ (analyze_video true [zeroViewVideo] none).status = 500
    ∧ (stNormalizeVideo zeroViewVideo).engagement_rate = 0 := by
  exact ⟨rfl, rfl, engagementRate_zero_view 5 5⟩

/-- C4 (counterexample).  The claim that the derived averageViews equals
`viewCount / videoCount` (and 0 when `videoCount = 0`) fails twice: the API
channel surface rounds the quotient to the nearest integer
(`round(average_views, 0)`), so 3 views over 2 videos yields 2 rather than
3/2; and the dashboard channel surface divides by `max(videoCount, 1)`, so
500 views over 0 videos yields 500 rather than 0. -/
theorem average_views_counterexample :
    appAverageViews 3 2 = 2 ∧ ((3 : ℚ) / 2) ≠ 2
    ∧ stChannelAvgViews 500 0 = 500 ∧ (500 : ℚ) ≠ 0 := by
  refine ⟨?_, by norm_num, ?_, by norm_num⟩
  · unfold appAverageViews round0
    rw [if_pos (by norm_num : (0 : ℕ) < 2)]
    have h32 : ((3 : ℕ) : ℚ) / ((2 : ℕ) : ℚ) = 3/2 := by norm_num
    rw [h32, pyRound_eval (3/2 : ℚ) 1 (by norm_num) (by norm_num)]
    norm_num
  · unfold stChannelAvgViews
    norm_num

/-- C4 (amended).  No surface that derives averageViews can raise a
division-by-zero exception (all three derivations below are total
functions), and: the API channel surface derives
`round(viewCount/videoCount, 0)` for `videoCount > 0` and 0 for
`videoCount = 0`; the two dashboard surfaces derive
`viewCount / max(videoCount, 1)`, which equals the exact quotient for
`videoCount > 0` but equals `viewCount` (not 0) when `videoCount = 0`. -/
theorem average_views_amended (view video : Nat) (stats : RawChannelStats)
    (snip : RawSnippet) :
    (0 < video → appAverageViews view video = round0 ((view : ℚ) / (video : ℚ)))
    ∧ (video = 0 → appAverageViews view video = 0)
    ∧ (0 < video → stChannelAvgViews view video = (view : ℚ) / (video : ℚ))
    ∧ (video = 0 → stChannelAvgViews view video = (view : ℚ))
    ∧ (stats.videoCount = some 0 →
        (stCompareRow stats snip).average_views = (stats.viewCount.getD 0 : ℚ))
    ∧ (∀ n : Nat, stats.videoCount = some n → 0 < n →
        (stCompareRow stats snip).average_views
          = (stats.viewCount.getD 0 : ℚ) / (n : ℚ)) := by
  refine ⟨?_, ?_, ?_, ?_, ?_, ?_⟩
  · intro h
    unfold appAverageViews
    rw [if_pos h]
  · intro h
    subst h
    unfold appAverageViews
    rw [if_neg (lt_irrefl 0), round0_zero]
  · intro h
    unfold stChannelAvgViews
    rw [max_eq_left h]
  · intro h
    subst h
    unfold stChannelAvgViews
    norm_num
  · intro h
    unfold stCompareRow
    rw [h]
    norm_num
  · intro n h hn
    unfold stCompareRow
    rw [h]
    simp only [Option.getD_some]
    rw [max_eq_left hn]

theorem average_views_amended_witness :
    appAverageViews 10 2 = round0 ((10 : ℚ) / 2) :=
  (average_views_amended 10 2 ⟨none, none, none⟩ default).1 (by norm_num)

/-- C5 (counterexample).  The API search normalization subscripts
`item['statistics']` directly, so a record lacking the statistics object
raises `KeyError` — surfaced as HTTP 500 for the whole request — instead of
succeeding with zero defaults. -/
theorem missing_statistics_counterexample :
    appNormalizeVideo noStatsVideo = .error (.keyError "statistics")
    ∧ search_videos true [] [noStatsVideo] = .httpError 500 "'statistics'" := by
  exact ⟨rfl, rfl⟩

/-- C5 (amended).  For a raw video record lacking the statistics object, the
dashboard search normalization succeeds with
`viewCount = likeCount = commentCount = 0` and `engagementRate = 0` (it is a
total function), while the API search normalization raises
`KeyError('statistics')`, which fails the whole request with HTTP 500. -/
theorem missing_statistics_amended (item : RawVideo)
    (h : item.statistics = none) :
    (stNormalizeVideo item).view_count = 0
    ∧ (stNormalizeVideo item).like_count = 0
    ∧ (stNormalizeVideo item).comment_count = 0
    ∧ (stNormalizeVideo item).engagement_rate = 0
    ∧ appNormalizeVideo item = .error (.keyError "statistics") := by
  obtain ⟨i, s, st, c⟩ := item
  have h' : st = none := h
  subst h'
  exact ⟨rfl, rfl, rfl, engagementRate_zero_view 0 0, rfl⟩

theorem missing_statistics_amended_witness :
    (stNormalizeVideo noStatsVideo).engagement_rate = 0
    ∧ appNormalizeVideo noStatsVideo = .error (.keyError "statistics") := by
  have h := missing_statistics_amended noStatsVideo rfl
  exact ⟨h.2.2.2.1, h.2.2.2.2⟩

/-- The description field of a successful API video normalization. -/
def okVideoDescription : Except PyExc VideoInfo → Option String
  | .ok v => some v.description
  | .error _ => none

/-- The description field of a successful channel-analysis response. -/
def okChannelDescription : ApiResult ChannelInfo → Option String
  | .ok c => some c.description
  | .httpError _ _ => none

/-- `fullSnippet` with an empty (present) description. -/
def emptyDescSnippet : RawSnippet := { fullSnippet with description := some "" }

/-- A complete video record whose description is the empty string. -/
def emptyDescVideo : RawVideo :=
  { id := some "v2", snippet := some emptyDescSnippet
    statistics := some
      { viewCount := some 10, likeCount := some 1
        commentCount := some 0, dislikeCount := none }
    contentDetails := some
      { duration := some "PT1M", definition := some "hd", caption := none } }

/-- A complete channel record whose description is the empty string. -/
def emptyDescChannel : RawChannel :=
  { id := some "c1", snippet := some emptyDescSnippet
    statistics := some
      { subscriberCount := some 10, videoCount := some 2, viewCount := some 100 }
    contentDetails := some { uploads := none } }

/-- C6 (counterexample).  On an empty raw description, the API search surface
produces exactly the ellipsis appended to the empty string (`"..."`) and the
API channel surface produces the empty string — neither yields the claimed
"no description" placeholder. -/
theorem description_counterexample :
    okVideoDescription (appNormalizeVideo emptyDescVideo) = some "..."
    ∧ okChannelDescription (analyze_channel true "c1" [emptyDescChannel]) = some ""
    ∧ ("..." : String) ≠ "説明なし" ∧ ("" : String) ≠ "説明なし" := by
  exact ⟨rfl, rfl, by decide, by decide⟩

/-- C6 (amended).  For a non-empty raw description, all three surfaces derive
the first 200 characters followed by `"..."`.  For an empty or absent
description, only the dashboard channel surface yields the explicit
placeholder `"説明なし"`; the API search surface appends `"..."` even to the
empty string, and the API channel surface yields the empty string. -/
theorem description_amended (d : String) (hd : d ≠ "") :
    appVideoDescription d = d.take 200 ++ "..."
    ∧ appChannelDescription d = d.take 200 ++ "..."
    ∧ stChannelDescription (some d) = d.take 200 ++ "..."
    ∧ appVideoDescription "" = "..."
    ∧ appChannelDescription "" = ""
    ∧ stChannelDescription none = "説明なし"
    ∧ stChannelDescription (some "") = "説明なし" := by
  refine ⟨rfl, ?_, ?_, rfl, rfl, rfl, rfl⟩
  · unfold appChannelDescription
    rw [if_pos hd]
  · unfold stChannelDescription
    rw [show (some d).getD "" = d from rfl, if_pos hd]

theorem description_amended_witness :
    appChannelDescription "abc" = "abc".take 200 ++ "..." :=
  (description_amended "abc" (by decide)).2.1

/-- A snippet with no thumbnails object at all. -/
def noThumbSnip : RawSnippet := default

/-- A snippet whose thumbnails object offers only the default resolution. -/
def onlyDefaultSnip : RawSnippet :=
  { (default : RawSnippet) with thumbnails := some [("default", "u")] }

/-- C7 (counterexample).  Thumbnail extraction neither falls back to the next
best available resolution nor is total everywhere: the dashboard extraction
returns the empty string although a `default`-resolution url `"u"` is
available, and the API extraction raises `KeyError` on a record without a
thumbnails object. -/
theorem thumbnail_counterexample :
    stThumbUrl onlyDefaultSnip "medium" = ""
    ∧ onlyDefaultSnip.thumbnails = some [("default", "u")]
    ∧ ("u" : String) ≠ ""
    ∧ appThumbUrl noThumbSnip = .error (.keyError "thumbnails") := by
  exact ⟨rfl, rfl, by decide, rfl⟩

/-- C7 (amended).  The dashboard thumbnail extraction is total and returns
either the url stored at the preferred resolution key or the empty string —
with no intermediate fallback to other available resolutions; the API
extraction subscripts `['thumbnails']['high']` and raises `KeyError` when
either key is missing. -/
theorem thumbnail_amended (s : RawSnippet) (pref : String) :
    (stThumbUrl s pref = "" ∨
      ∃ ts, s.thumbnails = some ts ∧ ts.lookup pref = some (stThumbUrl s pref))
    ∧ (s.thumbnails = none → appThumbUrl s = .error (.keyError "thumbnails"))
    ∧ (∀ ts, s.thumbnails = some ts → ts.lookup "high" = none →
        appThumbUrl s = .error (.keyError "high")) := by
  refine ⟨?_, ?_, ?_⟩
  · cases hth : s.thumbnails with
    | none => exact Or.inl (by simp [stThumbUrl, hth])
    | some ts =>
      cases hlk : ts.lookup pref with
      | none => exact Or.inl (by simp [stThumbUrl, hth, hlk])
      | some u => exact Or.inr ⟨ts, rfl, by simp [stThumbUrl, hth, hlk]⟩
  · intro h
    simp [appThumbUrl, h]
  · intro ts h hlk
    simp [appThumbUrl, h, hlk]

theorem thumbnail_amended_witness :
    appThumbUrl noThumbSnip = .error (.keyError "thumbnails") :=
  (thumbnail_amended noThumbSnip "high").2.1 rfl

/-! ## Lemmas about the pandas descending sort -/

theorem pandasSortDesc_perm {β : Type} [LinearOrder β] (key : α → β)
    (rows : List α) : (pandasSortDesc key rows).Perm rows :=
  ((List.reverse_perm _).trans
    (List.perm_insertionSort _ rows.reverse)).trans (List.reverse_perm rows)

theorem pandasSortDesc_pairwise {β : Type} [LinearOrder β] (key : α → β)
    (rows : List α) :
    (pandasSortDesc key rows).Pairwise (fun a b => key b ≤ key a) := by
  unfold pandasSortDesc
  rw [List.pairwise_reverse]
  haveI : IsTotal α (fun a b => key a ≤ key b) :=
    ⟨fun a b => le_total (key a) (key b)⟩
  haveI : IsTrans α (fun a b => key a ≤ key b) :=
    ⟨fun _ _ _ hab hbc => le_trans hab hbc⟩
  exact List.sorted_insertionSort _ rows.reverse

theorem filter_orderedInsert_asc_eq {β : Type} [LinearOrder β] (key : α → β)
    (x : α) (l : List α) (v : β) (hx : key x = v) :
    (List.orderedInsert (fun a b => key a ≤ key b) x l).filter
        (fun e => decide (key e = v))
      = x :: l.filter (fun e => decide (key e = v)) := by
  induction l with
  | nil => simp [List.orderedInsert, hx]
  | cons y ys ih =>
    rw [List.orderedInsert]
    by_cases hr : key x ≤ key y
    · rw [if_pos hr]
      simp [List.filter_cons, hx]
    · rw [if_neg hr]
      have hy : ¬ (key y = v) := by
        rw [← hx]
        exact ne_of_lt (not_le.mp hr)
      simp [List.filter_cons, hy, ih]

theorem filter_orderedInsert_asc_ne {β : Type} [LinearOrder β] (key : α → β)
    (x : α) (l : List α) (v : β) (hx : key x ≠ v) :
    (List.orderedInsert (fun a b => key a ≤ key b) x l).filter
        (fun e => decide (key e = v))
      = l.filter (fun e => decide (key e = v)) := by
  induction l with
  | nil => simp [List.orderedInsert, hx]
  | cons y ys ih =>
    rw [List.orderedInsert]
    by_cases hr : key x ≤ key y
    · rw [if_pos hr]
      simp [List.filter_cons, hx]
    · rw [if_neg hr]
      simp [List.filter_cons, ih]

theorem filter_insertionSort_asc {β : Type} [LinearOrder β] (key : α → β)
    (l : List α) (v : β) :
    (List.insertionSort (fun a b => key a ≤ key b) l).filter
        (fun e => decide (key e = v))
      = l.filter (fun e => decide (key e = v)) := by
  induction l with
  | nil => rfl
  | cons x xs ih =>
    rw [List.insertionSort]
    by_cases hx : key x = v
    · rw [filter_orderedInsert_asc_eq key x _ v hx, ih]
      simp [List.filter_cons, hx]
    · rw [filter_orderedInsert_asc_ne key x _ v hx, ih]
      simp [List.filter_cons, hx]

/-- Stability of the pandas descending sort: for every key value, the rows
holding that value come out in exactly their input order (the pre- and
post-reversal of `nargsort` cancel on each class of equal keys). -/
theorem pandasSortDesc_stable {β : Type} [LinearOrder β] (key : α → β)
    (rows : List α) (v : β) :
    (pandasSortDesc key rows).filter (fun e => decide (key e = v))
      = rows.filter (fun e => decide (key e = v)) := by
  unfold pandasSortDesc
  rw [List.filter_reverse, filter_insertionSort_asc, List.filter_reverse,
    List.reverse_reverse]

/-- Two channels tied on subscriber count, titled A and B. -/
def chA : ChannelInfo :=
  { channel_id := "a", title := "A", description := ""
    subscriber_count := 10, video_count := 1, view_count := 100
    published_at := "", thumbnail_url := "", average_views := 100 }

/-- Same statistics as `chA`, titled B. -/
def chB : ChannelInfo := { chA with channel_id := "b", title := "B" }

/-- C8 (confirmed).  For an input of one to five channels, each of the three
rankings is the title image of the row list sorted by the respective metric,
and that row list is a permutation of the input, descending in the metric,
and stable: for every key value, the rows holding it keep their input order
(ties broken by input order, because pandas `nargsort` reverses values and
indices before the stable ascending argsort — numpy's insertion-sort branch
for fewer than sixteen rows — and reverses the indexer after, the two
reversals cancelling on each class of equal keys).  Consequently each
ranking is a permutation of the input titles, and re-running the
aggregation on the same input yields the identical ranking order. -/
theorem rankings_stable_desc (chs : List ChannelInfo) (h1 : 1 ≤ chs.length)
    (h5 : chs.length ≤ 5) :
    (compareRankings chs).by_subscribers
        = (pandasSortDesc (fun c => c.subscriber_count) chs).map
            (fun c => c.title)
    ∧ (compareRankings chs).by_total_views
        = (pandasSortDesc (fun c => c.view_count) chs).map (fun c => c.title)
    ∧ (compareRankings chs).by_avg_views
        = (pandasSortDesc (fun c => c.average_views) chs).map
            (fun c => c.title)
    ∧ ((compareRankings chs).by_subscribers).Perm (chs.map fun c => c.title)
    ∧ ((compareRankings chs).by_total_views).Perm (chs.map fun c => c.title)
    ∧ ((compareRankings chs).by_avg_views).Perm (chs.map fun c => c.title)
    ∧ (pandasSortDesc (fun c => c.subscriber_count) chs).Pairwise
        (fun a b => b.subscriber_count ≤ a.subscriber_count)
    ∧ (pandasSortDesc (fun c => c.view_count) chs).Pairwise
        (fun a b => b.view_count ≤ a.view_count)
    ∧ (pandasSortDesc (fun c => c.average_views) chs).Pairwise
        (fun a b => b.average_views ≤ a.average_views)
    ∧ (∀ v : Nat, (pandasSortDesc (fun c => c.subscriber_count) chs).filter
        (fun c => decide (c.subscriber_count = v))
          = chs.filter (fun c => decide (c.subscriber_count = v)))
    ∧ (∀ v : Nat, (pandasSortDesc (fun c => c.view_count) chs).filter
        (fun c => decide (c.view_count = v))
          = chs.filter (fun c => decide (c.view_count = v)))
    ∧ (∀ v : ℚ, (pandasSortDesc (fun c => c.average_views) chs).filter
        (fun c => decide (c.average_views = v))
          = chs.filter (fun c => decide (c.average_views = v)))
    ∧ compareRankings chs = compareRankings chs := by
  refine ⟨rfl, rfl, rfl, ?_, ?_, ?_,
    pandasSortDesc_pairwise _ _, pandasSortDesc_pairwise _ _,
    pandasSortDesc_pairwise _ _,
    fun v => pandasSortDesc_stable _ _ v, fun v => pandasSortDesc_stable _ _ v,
    fun v => pandasSortDesc_stable _ _ v, rfl⟩
  · exact (pandasSortDesc_perm _ _).map _
  · exact (pandasSortDesc_perm _ _).map _
  · exact (pandasSortDesc_perm _ _).map _

theorem rankings_stable_desc_witness :
    ((compareRankings [chA, chB]).by_subscribers).Perm
      ([chA, chB].map fun c => c.title) :=
  (rankings_stable_desc [chA, chB] (by decide) (by decide)).2.2.2.1

/-- C9 (confirmed).  The growth-potential list contains exactly the entries
of the input channels with positive subscriber count: every entry arises
from such a channel (so no channel with `subscriberCount = 0` ever
contributes), carries `round2((averageViews / subscriberCount) * 100)` as
its displayed score, and its tier compares the (unrounded) score against
the thresholds 10 and 5; conversely every input channel with positive
subscriber count contributes its entry. -/
theorem growth_potential_characterization (chs : List ChannelInfo) :
    (∀ e ∈ growthPotential chs, ∃ c, c ∈ chs ∧ 0 < c.subscriber_count
      ∧ e = growthEntryOf c
      ∧ e.engagement_score
          = round2 ((c.average_views / (c.subscriber_count : ℚ)) * 100)
      ∧ e.rating = growthRating ((c.average_views / (c.subscriber_count : ℚ)) * 100))
    ∧ (∀ c ∈ chs, 0 < c.subscriber_count →
        growthEntryOf c ∈ growthPotential chs) := by
  constructor
  · intro e he
    obtain ⟨c, hc, hfc⟩ := List.mem_filterMap.mp he
    by_cases hs : 0 < c.subscriber_count
    · rw [if_pos hs] at hfc
      obtain rfl : growthEntryOf c = e := Option.some.inj hfc
      exact ⟨c, hc, hs, rfl, rfl, rfl⟩
    · rw [if_neg hs] at hfc
      cases hfc
  · intro c hc hs
    exact List.mem_filterMap.mpr ⟨c, hc, by rw [if_pos hs]⟩

/-- The worked example of the spec: 1000 subscribers, 10 videos, 100000
views, hence averageViews 10000. -/
def chG : ChannelInfo :=
  { channel_id := "g", title := "G", description := ""
    subscriber_count := 1000, video_count := 10, view_count := 100000
    published_at := "", thumbnail_url := "", average_views := 10000 }

theorem growth_potential_characterization_witness :
    growthEntryOf chG ∈ growthPotential [chG] :=
  (growth_potential_characterization [chG]).2 chG (List.mem_singleton.mpr rfl)
    (by decide)

/-! ## Counting-table lemmas for the keyword-frequency extraction -/

/-- First-seen-order deduplication, used to state in which order the counting
table holds its keys. -/
def dedupKeepFirst (ws : List String) : List String :=
  ws.foldl (fun ks w => if w ∈ ks then ks else ks ++ [w]) []

theorem lookup_bump_self (acc : List (String × Nat)) (w : String) :
    (bump acc w).lookup w = some ((acc.lookup w).getD 0 + 1) := by
  induction acc with
  | nil => simp [bump, List.lookup]
  | cons p rest ih =>
    obtain ⟨k, c⟩ := p
    by_cases hk : k = w
    · subst hk
      simp [bump, List.lookup]
    · simp only [bump, if_neg hk, List.lookup]
      have hne : (w == k) = false := by simp [Ne.symm hk]
      simp [hne, ih]

theorem lookup_bump_ne (acc : List (String × Nat)) (w k : String) (h : k ≠ w) :
    (bump acc w).lookup k = acc.lookup k := by
  have hne : (k == w) = false := by simp [h]
  induction acc with
  | nil => simp [bump, List.lookup, hne]
  | cons p rest ih =>
    obtain ⟨k', c⟩ := p
    by_cases hk : k' = w
    · subst hk
      simp [bump, List.lookup, hne]
    · simp only [bump, if_neg hk, List.lookup]
      cases hkk : (k == k') <;> simp [ih]

theorem keys_bump (acc : List (String × Nat)) (w : String) :
    (bump acc w).map Prod.fst
      = if w ∈ acc.map Prod.fst then acc.map Prod.fst
        else acc.map Prod.fst ++ [w] := by
  induction acc with
  | nil => simp [bump]
  | cons p rest ih =>
    obtain ⟨k, c⟩ := p
    by_cases hk : k = w
    · subst hk
      simp [bump]
    · simp only [bump, if_neg hk, List.map_cons, ih, List.mem_cons]
      by_cases hw : w ∈ rest.map Prod.fst
      · simp [hw, Ne.symm hk]
      · simp [hw, Ne.symm hk]

theorem foldl_bump_lookup (ws : List String) (acc : List (String × Nat))
    (k : String) :
    (ws.foldl bump acc).lookup k
      = if k ∈ ws ∨ (acc.lookup k).isSome
        then some ((acc.lookup k).getD 0 + ws.count k)
        else none := by
  induction ws generalizing acc with
  | nil =>
    cases h : acc.lookup k <;> simp [h]
  | cons w ws ih =>
    rw [List.foldl_cons, ih]
    by_cases hkw : k = w
    · subst hkw
      rw [lookup_bump_self]
      simp [List.count_cons]
      omega
    · rw [lookup_bump_ne _ _ _ hkw]
      have hmm : (k ∈ w :: ws) = (k ∈ ws) := by simp [List.mem_cons, hkw]
      have hcc : List.count k (w :: ws) = List.count k ws := by
        simp [List.count_cons, hkw]
      simp only [hmm, hcc]

theorem nodup_dedup_step (ws : List String) (ks : List String)
    (h : ks.Nodup) :
    (ws.foldl (fun ks w => if w ∈ ks then ks else ks ++ [w]) ks).Nodup := by
  induction ws generalizing ks with
  | nil => exact h
  | cons w ws ih =>
    rw [List.foldl_cons]
    apply ih
    by_cases hw : w ∈ ks
    · simpa [hw] using h
    · simp only [if_neg hw]
      simp [List.nodup_append, h, hw]

theorem lookup_of_mem_keysNodup (l : List (String × Nat))
    (h : (l.map Prod.fst).Nodup) (k : String) (c : Nat) (hm : (k, c) ∈ l) :
    l.lookup k = some c := by
  induction l with
  | nil => cases hm
  | cons p rest ih =>
    obtain ⟨k', c'⟩ := p
    rcases List.mem_cons.mp hm with heq | hmem
    · obtain ⟨rfl, rfl⟩ : k' = k ∧ c' = c := by
        constructor <;> injection heq <;> simp_all
      simp [List.lookup]
    · have hk : k ≠ k' := by
        rintro rfl
        have hmap : k ∈ rest.map Prod.fst := List.mem_map_of_mem Prod.fst hmem
        exact (List.nodup_cons.mp (by simpa using h)).1 hmap
      have hne : (k == k') = false := by simp [hk]
      simp only [List.lookup, hne]
      exact ih (List.nodup_cons.mp (by simpa using h)).2 hmem

theorem mem_of_lookup_eq_some {l : List (String × Nat)} {k : String} {c : Nat}
    (h : l.lookup k = some c) : (k, c) ∈ l := by
  induction l with
  | nil => cases h
  | cons p rest ih =>
    obtain ⟨k', v⟩ := p
    by_cases hk : k = k'
    · subst hk
      simp [List.lookup] at h
      subst h
      exact List.mem_cons_self _ _
    · have hne : (k == k') = false := by simp [hk]
      simp only [List.lookup, hne] at h
      exact List.mem_cons_of_mem _ (ih h)

theorem keys_foldl_bump (ws : List String) (acc : List (String × Nat)) :
    (ws.foldl bump acc).map Prod.fst
      = ws.foldl (fun ks w => if w ∈ ks then ks else ks ++ [w])
          (acc.map Prod.fst) := by
  induction ws generalizing acc with
  | nil => rfl
  | cons w ws ih =>
    rw [List.foldl_cons, List.foldl_cons, ih, keys_bump]

theorem stKeywordCounts_lookup (base : String) (hits : List RawSearchHit)
    (k : String) :
    (stKeywordCounts base hits).lookup k
      = if k ∈ stAllTokens base hits
        then some ((stAllTokens base hits).count k)
        else none := by
  unfold stKeywordCounts
  rw [foldl_bump_lookup]
  simp [List.lookup]

theorem stKeywordCounts_keys (base : String) (hits : List RawSearchHit) :
    (stKeywordCounts base hits).map Prod.fst
      = dedupKeepFirst (stAllTokens base hits) := by
  unfold stKeywordCounts dedupKeepFirst
  have h := keys_foldl_bump (stAllTokens base hits) []
  simpa using h

theorem stKeywordCounts_keysNodup (base : String) (hits : List RawSearchHit) :
    ((stKeywordCounts base hits).map Prod.fst).Nodup := by
  rw [stKeywordCounts_keys]
  exact nodup_dedup_step _ [] List.nodup_nil

theorem stKeywordCounts_mem (base : String) (hits : List RawSearchHit)
    (k : String) (c : Nat) :
    (k, c) ∈ stKeywordCounts base hits
      ↔ k ∈ stAllTokens base hits ∧ c = (stAllTokens base hits).count k := by
  constructor
  · intro hm
    have hl := lookup_of_mem_keysNodup _ (stKeywordCounts_keysNodup base hits)
      k c hm
    rw [stKeywordCounts_lookup] at hl
    by_cases hk : k ∈ stAllTokens base hits
    · rw [if_pos hk] at hl
      exact ⟨hk, (Option.some.inj hl).symm⟩
    · rw [if_neg hk] at hl
      cases hl
  · rintro ⟨hk, rfl⟩
    apply mem_of_lookup_eq_some
    rw [stKeywordCounts_lookup, if_pos hk]

theorem mem_stAllTokens_props (base : String) (hits : List RawSearchHit)
    (w : String) (h : w ∈ stAllTokens base hits) :
    3 < w.length ∧ w ≠ pyLower base := by
  unfold stAllTokens at h
  obtain ⟨hit, _, hw⟩ := List.mem_flatMap.mp h
  unfold stTitleTokens at hw
  have hp := (List.mem_filter.mp hw).2
  simp only [Bool.and_eq_true, decide_eq_true_eq] at hp
  exact ⟨hp.1, hp.2⟩

/-! ## Stability of the descending sort (Python's `sorted` keeps ties in
encounter order also with `reverse=True`) -/

theorem filter_orderedInsert_eq (x : String × Nat) (l : List (String × Nat))
    (n : Nat) (hx : x.2 = n) :
    (List.orderedInsert (fun a b : String × Nat => b.2 ≤ a.2) x l).filter
        (fun e => e.2 == n)
      = x :: l.filter (fun e => e.2 == n) := by
  induction l with
  | nil => simp [List.orderedInsert, hx]
  | cons y ys ih =>
    rw [List.orderedInsert]
    by_cases hr : y.2 ≤ x.2
    · rw [if_pos hr]
      simp [List.filter_cons, hx]
    · rw [if_neg hr]
      have hy : (y.2 == n) = false := by
        simp only [beq_eq_false_iff_ne, ne_eq]
        omega
      simp [List.filter_cons, hy, ih]

theorem filter_orderedInsert_ne (x : String × Nat) (l : List (String × Nat))
    (n : Nat) (hx : x.2 ≠ n) :
    (List.orderedInsert (fun a b : String × Nat => b.2 ≤ a.2) x l).filter
        (fun e => e.2 == n)
      = l.filter (fun e => e.2 == n) := by
  have hxf : (x.2 == n) = false := by simp [hx]
  induction l with
  | nil => simp [List.orderedInsert, hxf]
  | cons y ys ih =>
    rw [List.orderedInsert]
    by_cases hr : y.2 ≤ x.2
    · rw [if_pos hr]
      simp [List.filter_cons, hxf]
    · rw [if_neg hr]
      simp [List.filter_cons, ih]

theorem filter_insertionSort_eq (l : List (String × Nat)) (n : Nat) :
    (List.insertionSort (fun a b : String × Nat => b.2 ≤ a.2) l).filter
        (fun e => e.2 == n)
      = l.filter (fun e => e.2 == n) := by
  induction l with
  | nil => rfl
  | cons x xs ih =>
    rw [List.insertionSort]
    by_cases hx : x.2 = n
    · rw [filter_orderedInsert_eq x _ n hx, ih]
      simp [List.filter_cons, hx]
    · rw [filter_orderedInsert_ne x _ n hx, ih]
      have hxf : (x.2 == n) = false := by simp [hx]
      simp [List.filter_cons, hxf]

/-- C10 (amended).  The dashboard keyword-frequency extraction returns at
most 20 entries, sorted by descending count; every returned entry is a
whitespace token of a case-folded title, longer than three characters and
different from the case-folded base keyword — the only exclusion applied,
there is no stopword set on this surface — and carries as its count the
exact number of occurrences of that token across all titles; every such
token has an entry in the counting table, whose keys are kept in first-seen
order; and among entries with equal counts the returned order is the
first-seen order (the returned entries with any fixed count form a prefix of
the table's entries with that count). -/
theorem keyword_amended (base : String) (hits : List RawSearchHit) :
    (stTopKeywords base hits).length ≤ 20
    ∧ (stTopKeywords base hits).Pairwise (fun a b => b.2 ≤ a.2)
    ∧ (∀ e ∈ stTopKeywords base hits,
        3 < e.1.length ∧ e.1 ≠ pyLower base
          ∧ e.2 = (stAllTokens base hits).count e.1)
    ∧ (∀ w ∈ stAllTokens base hits,
        (w, (stAllTokens base hits).count w) ∈ stKeywordCounts base hits)
    ∧ (∀ n : Nat, ∃ t,
        ((stTopKeywords base hits).filter fun e => e.2 == n) ++ t
          = (stKeywordCounts base hits).filter fun e => e.2 == n)
    ∧ (stKeywordCounts base hits).map Prod.fst
        = dedupKeepFirst (stAllTokens base hits) := by
  haveI : IsTotal (String × Nat) (fun a b => b.2 ≤ a.2) :=
    ⟨fun a b => le_total b.2 a.2⟩
  haveI : IsTrans (String × Nat) (fun a b => b.2 ≤ a.2) :=
    ⟨fun _ _ _ hab hbc => le_trans hbc hab⟩
  refine ⟨?_, ?_, ?_, ?_, ?_, stKeywordCounts_keys base hits⟩
  · exact List.length_take_le _ _
  · exact List.Pairwise.sublist (List.take_sublist _ _)
      (List.sorted_insertionSort _ _)
  · intro e he
    have hmem := List.mem_of_mem_take he
    have hc : e ∈ stKeywordCounts base hits :=
      (List.mem_insertionSort _).mp hmem
    obtain ⟨k, c⟩ := e
    obtain ⟨hk, hcount⟩ := (stKeywordCounts_mem base hits k c).mp hc
    obtain ⟨hlen, hbase⟩ := mem_stAllTokens_props base hits k hk
    exact ⟨hlen, hbase, hcount⟩
  · intro w hw
    exact (stKeywordCounts_mem base hits w _).mpr ⟨hw, rfl⟩
  · intro n
    refine ⟨((List.insertionSort (fun a b : String × Nat => b.2 ≤ a.2)
        (stKeywordCounts base hits)).drop 20).filter (fun e => e.2 == n), ?_⟩
    show ((List.insertionSort _ (stKeywordCounts base hits)).take 20).filter _
        ++ _ = _
    rw [← List.filter_append, List.take_append_drop, filter_insertionSort_eq]

/-- A search hit whose title tokenizes (after case folding) to
`with, with, with, beta`. -/
def kwSnip : RawSnippet :=
  { (default : RawSnippet) with title := some "With with WITH beta" }

/-- The hit carrying `kwSnip`. -/
def kwHit : RawSearchHit := { videoId := some "v", snippet := some kwSnip }

theorem keyword_amended_witness :
    3 < ("with" : String).length ∧ ("with" : String) ≠ pyLower "python"
      ∧ (3 : Nat) = (stAllTokens "python" [kwHit]).count "with" :=
  (keyword_amended "python" [kwHit]).2.2.1 ("with", 3) (by decide)

/-- A hit whose title is four occurrences of the stopword `with`. -/
def stopSnip : RawSnippet :=
  { (default : RawSnippet) with title := some "with with with with" }

/-- The hit carrying `stopSnip`. -/
def stopHit : RawSearchHit := { videoId := some "w", snippet := some stopSnip }

/-- A hit whose title is four occurrences of the base keyword `python`. -/
def pySnip : RawSnippet :=
  { (default : RawSnippet) with title := some "python python python python" }

/-- The hit carrying `pySnip`. -/
def pyHit : RawSearchHit := { videoId := some "p", snippet := some pySnip }

/-- C10 (counterexample).  The keyword-frequency surface (the dashboard) has
no stopword set: `with` — a member of the repository's stopword list, which
lives only in the API keyword-suggestion surface — is counted and returned
as a top keyword, while `python` (longer than three characters and not a
stopword) is excluded merely for being the base keyword; the API surface's
token filter, which does apply the stopword set, performs no occurrence
counting at all. -/
theorem keyword_stopword_counterexample :
    stTopKeywords "python" [stopHit] = [("with", 4)]
    ∧ "with" ∈ appStopwords
    ∧ stTopKeywords "python" [pyHit] = []
    ∧ "python" ∉ appStopwords
    ∧ 3 < ("python" : String).length
    ∧ appTitleTokens "with with with with" = [] := by
  exact ⟨by decide, by decide, by decide, by decide, by decide, by decide⟩
